import Mathlib

/-!
Shallow embedding of the opencode-copilot-usage tool
(source: src/tools/copilot-usage.ts) and proofs about it.

The tool resolves a GitHub credential (environment variable or the
opencode auth.json credential file), derives the API endpoint, fetches a
usage quota snapshot and renders it as a markdown text block.

Modelling conventions:
- JavaScript values that may be `undefined` are modelled as `Option`.
- Promise rejection / thrown errors are modelled as `Except String`,
  carrying the error message string.
- The ambient world (environment variables, the credential file, the HTTP
  response and the JSON parser) is an explicit `World` record, mirroring
  the spec's design note that these are injectable inputs.
- JS numbers appearing as counts are modelled as `Int`; the percentage
  field is modelled as `Rat`.
-/

/-- The `authSource` argument accepts only the enum values
`enterprise` and `public` (zod enum in the tool schema). -/
inductive AuthSource where
  | enterprise
  | public
deriving DecidableEq, Repr

/-- `IToolArgs`: the tool's argument record; `authSource` is optional. -/
structure IToolArgs where
  authSource : Option AuthSource
deriving Repr

/-- One entry of auth.json (key `github-copilot` or
`github-copilot-enterprise`): an object with an `access` secret and an
optional `enterpriseUrl`.  A missing `access` field behaves exactly like
the empty string under the JS truthiness test the code uses, so `access`
is modelled as a plain `String`. -/
structure AuthEntry where
  access : String
  enterpriseUrl : Option String
deriving Repr, DecidableEq

/-- The parsed auth.json document: the two recognized top-level keys,
each possibly absent. -/
structure AuthData where
  githubCopilotEnterprise : Option AuthEntry
  githubCopilot : Option AuthEntry
deriving Repr, DecidableEq

/-- Result record of `getAuthToken`:
`{ token: string; enterpriseUrl?: string; source: string }`. -/
structure AuthResult where
  token : String
  enterpriseUrl : Option String
  source : String
deriving Repr, DecidableEq

/-- An HTTP response as observed by `fetchData`: status code, status
message and accumulated body text. -/
structure HttpResponse where
  statusCode : Nat
  statusMessage : String
  body : String
deriving Repr

/-- `IQuotaSnapshotData` from the source. -/
structure IQuotaSnapshotData where
  entitlement : Int
  overage_count : Int
  overage_permitted : Bool
  percent_remaining : Rat
  remaining : Int
  unlimited : Bool
deriving Repr

/-- The `quota_snapshots` object of `IEntitlementsData`. -/
structure QuotaSnapshots where
  chat : Option IQuotaSnapshotData
  completions : Option IQuotaSnapshotData
  premium_interactions : Option IQuotaSnapshotData
deriving Repr

/-- `IEntitlementsData` from the source. -/
structure IEntitlementsData where
  copilot_plan : String
  quota_snapshots : Option QuotaSnapshots
deriving Repr

/-- `IUsageResult` from the source. -/
structure IUsageResult where
  plan : String
  used : Int
  total : Int
  percentUsed : Rat
  unlimited : Bool
deriving Repr

/-- The ambient world an invocation runs against: the `GITHUB_TOKEN`
environment variable, the auth.json file (absent or parsed), the HTTP
exchange outcome (`Except.error` models a transport-level request error,
`Except.ok` a response that arrived), and the behaviour of `JSON.parse`
on response bodies (`Except.error` models a thrown parse error). -/
structure World where
  envToken : Option String
  authFile : Option AuthData
  response : Except String HttpResponse
  parseJson : String → Except String IEntitlementsData

/-- Split a character list at every occurrence of `sep`, JS
`String.prototype.split` style: no match yields the whole input, a
trailing separator yields a trailing empty piece. -/
def splitCharAux (sep : Char) : List Char → List Char → List (List Char)
  | [], acc => [acc.reverse]
  | c :: cs, acc =>
      if c = sep then acc.reverse :: splitCharAux sep cs []
      else splitCharAux sep cs (c :: acc)

/-- JS `s.split (sep)` for a one-character separator. -/
def splitChar (sep : Char) (s : String) : List String :=
  (splitCharAux sep s.data []).map String.mk

/-- ASCII lowercasing, as the WHATWG URL parser applies to hostnames. -/
def lowerString (s : String) : String :=
  String.mk (s.data.map Char.toLower)

/-- The lines of a string: the pieces between newline characters. -/
def linesOf (s : String) : List String :=
  splitChar (Char.ofNat 10) s

/-- JS property read `entry.access` on a possibly-absent entry; only
reached by the code on entries it has already checked to be present. -/
def getAccess : Option AuthEntry → String
  | some a => a.access
  | none => ""

/-- JS property read `entry.enterpriseUrl` on a possibly-absent entry. -/
def getEnterpriseUrl : Option AuthEntry → Option String
  | some a => a.enterpriseUrl
  | none => none

/-- The truthiness test `entry && entry.access`: the entry exists and its
access secret is non-empty. -/
def entryPresent : Option AuthEntry → Bool
  | some a => a.access != ""
  | none => false

/-- `capitalizePlanName`: split on underscores, uppercase the first
character of each word, join with spaces. -/
def capWord (w : String) : String :=
  match w.data with
  | [] => ""
  | c :: cs => String.mk (c.toUpper :: cs)

/-- `capitalizePlanName` from the source. -/
def capitalizePlanName (plan : String) : String :=
  String.intercalate " " ((splitChar '_' plan).map capWord)

/-- The file-based part of `getAuthToken` (source lines 125 to 165),
reached when no non-empty environment token exists. -/
def getAuthTokenFromFile (preferredSource : Option AuthSource)
    (authFile : Option AuthData) : Except String AuthResult :=
  match authFile with
  | none =>
      .error "Authentication not found. Set GITHUB_TOKEN env var or authenticate with OpenCode"
  | some authData =>
      let enterpriseAuth := authData.githubCopilotEnterprise
      let publicAuth := authData.githubCopilot
      let hasEnterprise := entryPresent enterpriseAuth
      let hasPublic := entryPresent publicAuth
      if !hasEnterprise && !hasPublic then
        .error "GitHub Copilot authentication not found in auth.json"
      else if hasEnterprise && hasPublic then
        let source : String :=
          if preferredSource = some AuthSource.enterprise then "enterprise" else "public"
        let selectedAuth :=
          if preferredSource = some AuthSource.enterprise then enterpriseAuth else publicAuth
        .ok { token := getAccess selectedAuth
              enterpriseUrl := getEnterpriseUrl selectedAuth
              source := source }
      else
        let source : String := if hasEnterprise then "enterprise" else "public"
        let selectedAuth := if hasEnterprise then enterpriseAuth else publicAuth
        .ok { token := getAccess selectedAuth
              enterpriseUrl := getEnterpriseUrl selectedAuth
              source := source }

/-- `getAuthToken`: the environment token, when set and non-empty (the JS
truthiness test on `process.env.GITHUB_TOKEN`), is returned immediately
with source tag `env` and no enterprise URL; otherwise resolution falls
through to the credential file.  Logging calls have no effect on the
returned value and are omitted. -/
def getAuthToken (preferredSource : Option AuthSource) (w : World) :
    Except String AuthResult :=
  match w.envToken with
  | some t =>
      if t = "" then getAuthTokenFromFile preferredSource w.authFile
      else .ok { token := t, enterpriseUrl := none, source := "env" }
  | none => getAuthTokenFromFile preferredSource w.authFile

/-- The hostname of `new URL ("https://" ++ s)` for a host-shaped input
`s` (a network host with an optional `:port` suffix): the part before the
colon, ASCII-lowercased as the WHATWG URL parser does. -/
def urlHostname (s : String) : String :=
  lowerString ((splitChar ':' s).headD s)

/-- The port of `new URL ("https://" ++ s)` for a host-shaped input:
the part after the colon, with the https default port 443 elided, and
empty when no port is given. -/
def urlPort (s : String) : String :=
  match splitChar ':' s with
  | [_, p] => if p = "443" then "" else p
  | _ => ""

/-- `getApiUrl`: no enterprise URL gives the fixed public endpoint;
otherwise the input is parsed as `new URL ("https://" ++ input)` (so the
protocol is always `https:`) and the endpoint is rebuilt with an `api.`
prefix on the hostname, the port reattached when present, and the fixed
path appended. -/
def getApiUrl : Option String → String
  | none => "https://api.github.com/copilot_internal/user"
  | some enterpriseUrl =>
      "https://" ++ "api." ++ urlHostname enterpriseUrl
        ++ (if urlPort enterpriseUrl = "" then "" else ":" ++ urlPort enterpriseUrl)
        ++ "/copilot_internal/user"

/-- `fetchData`: resolves with the body on a 2xx status, rejects with
`HTTP status: statusMessage` otherwise; a transport-level request error
rejects with that error's message.  (A missing status code fails the JS
truthiness guard and also falls outside 200 to 299, so the `Nat` model
agrees with the source's combined test.) -/
def fetchData (url : String) (token : String)
    (response : Except String HttpResponse) : Except String String :=
  match response with
  | .error e => .error e
  | .ok res =>
      if 200 ≤ res.statusCode ∧ res.statusCode < 300 then
        .ok res.body
      else
        .error ("HTTP " ++ toString res.statusCode ++ ": " ++ res.statusMessage)

/-- `toFixed 2` of a JS number, for the nonnegative exactly-representable
values that arise here: round half up to two decimals (the floor of
`q * 100 + 1 / 2`, computed on numerator and denominator) and print with
exactly two fractional digits. -/
def toFixed2 (q : Rat) : String :=
  let n : Int := (q.num * 200 + (q.den : Int)).fdiv (2 * (q.den : Int))
  let ip : Int := n / 100
  let fp : Nat := (n % 100).natAbs
  toString ip ++ "." ++ (if fp < 10 then "0" else "") ++ toString fp

/-- `fetchUsageData`: resolve the credential, build the URL, fetch, parse,
and normalize the premium-interactions quota snapshot.  Each `await` that
can reject is a `match` propagating the error. -/
def fetchUsageData (w : World) (args : IToolArgs) : Except String IUsageResult :=
  match getAuthToken args.authSource w with
  | .error e => .error e
  | .ok auth =>
      match fetchData (getApiUrl auth.enterpriseUrl) auth.token w.response with
      | .error e => .error e
      | .ok responseText =>
          match w.parseJson responseText with
          | .error e => .error e
          | .ok entitlements =>
              let planName := capitalizePlanName entitlements.copilot_plan
              match entitlements.quota_snapshots.bind
                  (fun s => s.premium_interactions) with
              | none =>
                  .error ("Premium requests not available for " ++ planName ++ " plan")
              | some quota =>
                  if quota.unlimited then
                    .ok { plan := planName, used := 0, total := 0
                          percentUsed := 0, unlimited := true }
                  else
                    .ok { plan := planName
                          used := quota.entitlement - quota.remaining
                          total := quota.entitlement
                          percentUsed := 100 - quota.percent_remaining
                          unlimited := false }

/-- `formatMarkdown` from the source: the two render templates. -/
def formatMarkdown (result : IUsageResult) : String :=
  if result.unlimited then
    "# Copilot " ++ result.plan ++ " Usage\n\nPremium requests: unlimited"
  else
    "# Copilot " ++ result.plan ++ " Usage\n\nPremium requests: "
      ++ toString result.used ++ "/" ++ toString result.total
      ++ " (" ++ toFixed2 result.percentUsed ++ "%)"

/-- The tool's `execute`: run the fetch, render the result; any rejection
anywhere in the chain is caught and rendered with the fixed error
template.  Logging is best-effort and does not affect the return value. -/
def execute (args : IToolArgs) (w : World) : String :=
  match fetchUsageData w args with
  | .ok result => formatMarkdown result
  | .error msg => "# Copilot Usage Error\n\nError: " ++ msg

/-- The API URL that `fetchUsageData` passes to `fetchData`
(source lines 168 to 172): the URL built from the resolved credential's
enterprise URL, or the credential-resolution error. -/
def resolvedApiUrl (args : IToolArgs) (w : World) : Except String String :=
  match getAuthToken args.authSource w with
  | .error e => .error e
  | .ok auth => .ok (getApiUrl auth.enterpriseUrl)

/-- The auth.json entry `getAuthTokenFromFile` selects when at least one
entry is present: with both present, the preference decides (enterprise
only when explicitly requested); with one present, that one. -/
def selectedEntry (preferredSource : Option AuthSource) (authData : AuthData) :
    Option AuthEntry :=
  if entryPresent authData.githubCopilotEnterprise
      && entryPresent authData.githubCopilot then
    if preferredSource = some AuthSource.enterprise then
      authData.githubCopilotEnterprise
    else
      authData.githubCopilot
  else if entryPresent authData.githubCopilotEnterprise then
    authData.githubCopilotEnterprise
  else
    authData.githubCopilot

/-! Concrete fixtures used by witnesses and counterexamples. -/

/-- A response that arrived with status 200 and a fixed body. -/
def resOk : HttpResponse :=
  { statusCode := 200, statusMessage := "OK", body := "body" }

/-- An auth.json with both entries present: the organizational entry
carries an enterprise URL, the standard one does not. -/
def adBoth : AuthData :=
  { githubCopilotEnterprise :=
      some { access := "ent-token", enterpriseUrl := some "ghe.example.com" }
    githubCopilot := some { access := "pub-token", enterpriseUrl := none } }

/-- World with a non-empty environment token and an auth.json holding an
organizational entry. -/
def wEnvAndFile : World :=
  { envToken := some "env-token"
    authFile := some adBoth
    response := .ok resOk
    parseJson := fun _ => .error "Unexpected token" }

/-- World with no environment token and both auth.json entries. -/
def wBoth : World :=
  { envToken := none
    authFile := some adBoth
    response := .ok resOk
    parseJson := fun _ => .error "Unexpected token" }

/-- C1: with a non-empty token in the environment store under the
well-known key, the Credential Resolver returns that token immediately
with the environment source tag and no enterprise URL (so it is treated
as the standard, generic variant), for every caller preference and every
credential-file state, including files with an organizational entry. -/
theorem C1_env_token_authoritative (w : World) (pref : Option AuthSource)
    (t : String) (henv : w.envToken = some t) (hne : t ≠ "") :
    getAuthToken pref w = .ok { token := t, enterpriseUrl := none, source := "env" } := by
  simp [getAuthToken, henv, hne]

/-- Witness for C1: environment token set while the credential file has
an organizational entry, and the caller asks for enterprise. -/
theorem C1_witness :
    wEnvAndFile.envToken = some "env-token" ∧ "env-token" ≠ "" ∧
    entryPresent adBoth.githubCopilotEnterprise = true ∧
    getAuthToken (some AuthSource.enterprise) wEnvAndFile =
      .ok { token := "env-token", enterpriseUrl := none, source := "env" } :=
  ⟨rfl, by decide, by decide,
    C1_env_token_authoritative wEnvAndFile (some AuthSource.enterprise) "env-token" rfl
      (by decide)⟩

/-- C2: with no environment token, both entries present selects the
organizational entry exactly when the caller prefers enterprise
(otherwise the standard entry, also with no preference), and a single
present entry is selected regardless of the preference. -/
theorem C2_file_entry_selection (w : World) (pref : Option AuthSource)
    (ad : AuthData) (henv : w.envToken = none) (hfile : w.authFile = some ad) :
    (entryPresent ad.githubCopilotEnterprise = true →
     entryPresent ad.githubCopilot = true →
     getAuthToken pref w =
       .ok { token := getAccess (if pref = some AuthSource.enterprise then
                        ad.githubCopilotEnterprise else ad.githubCopilot)
             enterpriseUrl := getEnterpriseUrl (if pref = some AuthSource.enterprise then
                        ad.githubCopilotEnterprise else ad.githubCopilot)
             source := if pref = some AuthSource.enterprise then "enterprise" else "public" })
    ∧ (entryPresent ad.githubCopilotEnterprise = true →
       entryPresent ad.githubCopilot = false →
       getAuthToken pref w =
         .ok { token := getAccess ad.githubCopilotEnterprise
               enterpriseUrl := getEnterpriseUrl ad.githubCopilotEnterprise
               source := "enterprise" })
    ∧ (entryPresent ad.githubCopilotEnterprise = false →
       entryPresent ad.githubCopilot = true →
       getAuthToken pref w =
         .ok { token := getAccess ad.githubCopilot
               enterpriseUrl := getEnterpriseUrl ad.githubCopilot
               source := "public" }) := by
  refine ⟨fun h1 h2 => ?_, fun h1 h2 => ?_, fun h1 h2 => ?_⟩ <;>
    by_cases hp : pref = some AuthSource.enterprise <;>
      simp [getAuthToken, henv, getAuthTokenFromFile, hfile, h1, h2, hp]

/-- Witness for C2: both entries present and no preference selects the
standard entry. -/
theorem C2_witness :
    getAuthToken none wBoth =
      .ok { token := "pub-token", enterpriseUrl := none, source := "public" } := by
  have h := (C2_file_entry_selection wBoth none adBoth rfl rfl).1 (by decide) (by decide)
  simpa using h

/-- C3: the Endpoint Builder returns the fixed public endpoint when no
organization host is given; given a host it prefixes the hostname with
api., keeps the port when one is present, and appends the fixed path;
the host github.example.com maps to exactly the expected URL. -/
theorem C3_endpoint_builder :
    getApiUrl none = "https://api.github.com/copilot_internal/user"
    ∧ (∀ h : String, getApiUrl (some h) =
        "https://" ++ "api." ++ urlHostname h
          ++ (if urlPort h = "" then "" else ":" ++ urlPort h)
          ++ "/copilot_internal/user")
    ∧ getApiUrl (some "github.example.com")
        = "https://api.github.example.com/copilot_internal/user"
    ∧ getApiUrl (some "ghe.example.com:8443")
        = "https://api.ghe.example.com:8443/copilot_internal/user" :=
  ⟨rfl, fun h => rfl, by decide, by decide⟩

/-- World with no environment token and only the standard entry present,
that entry carrying an enterpriseUrl field. -/
def wOnlyPublicWithUrl : World :=
  { envToken := none
    authFile := some
      { githubCopilotEnterprise := none
        githubCopilot := some { access := "pub-token", enterpriseUrl := some "ghe.example.com" } }
    response := .ok resOk
    parseJson := fun _ => .error "Unexpected token" }

/-- Counterexample to C4: the resolver copies the chosen entry's
enterpriseUrl field whatever the variant, so a chosen standard entry can
carry an organization host in the returned record. -/
theorem C4_counterexample :
    getAuthToken none wOnlyPublicWithUrl =
      .ok { token := "pub-token", enterpriseUrl := some "ghe.example.com", source := "public" }
    ∧ ({ token := "pub-token", enterpriseUrl := some "ghe.example.com",
         source := "public" } : AuthResult).source ≠ "enterprise"
    ∧ ({ token := "pub-token", enterpriseUrl := some "ghe.example.com",
         source := "public" } : AuthResult).enterpriseUrl ≠ none := by
  refine ⟨rfl, by decide, by decide⟩

/-- C4 amended: the resolver returns the chosen entry's enterpriseUrl
field alongside the secret regardless of the chosen variant (a standard
entry carrying such a field passes it through as well); the host may be
absent even for an organizational entry, and then the endpoint builder
falls back to the default public host. -/
theorem C4_amended_host_passthrough (w : World) (pref : Option AuthSource)
    (ad : AuthData) (henv : w.envToken = none) (hfile : w.authFile = some ad)
    (hpres : entryPresent ad.githubCopilotEnterprise = true
             ∨ entryPresent ad.githubCopilot = true) :
    ∃ r : AuthResult, getAuthToken pref w = .ok r
      ∧ r.enterpriseUrl = getEnterpriseUrl (selectedEntry pref ad)
      ∧ (r.enterpriseUrl = none →
         getApiUrl r.enterpriseUrl = "https://api.github.com/copilot_internal/user") := by
  by_cases he : entryPresent ad.githubCopilotEnterprise = true <;>
    by_cases hpub : entryPresent ad.githubCopilot = true <;>
      by_cases hp : pref = some AuthSource.enterprise <;>
        simp_all [getAuthToken, getAuthTokenFromFile, selectedEntry, getApiUrl]

/-- Witness for C4 amended: both entries present, no preference; the
chosen standard entry of this file has no host and the default endpoint
results. -/
theorem C4_amended_witness :
    ∃ r : AuthResult, getAuthToken none wBoth = .ok r
      ∧ r.enterpriseUrl = getEnterpriseUrl (selectedEntry none adBoth)
      ∧ (r.enterpriseUrl = none →
         getApiUrl r.enterpriseUrl = "https://api.github.com/copilot_internal/user") :=
  C4_amended_host_passthrough wBoth none adBoth rfl rfl (Or.inl (by decide))

/-- Tool arguments with no authSource preference. -/
def argsNone : IToolArgs := { authSource := none }

/-- A bounded premium-interactions snapshot: entitlement 200,
remaining 50, percent_remaining 25. -/
def qBounded : IQuotaSnapshotData :=
  { entitlement := 200, overage_count := 0, overage_permitted := false
    percent_remaining := 25, remaining := 50, unlimited := false }

/-- Entitlements payload for plan pro carrying the bounded snapshot. -/
def eQuota : IEntitlementsData :=
  { copilot_plan := "pro"
    quota_snapshots := some { chat := none, completions := none
                              premium_interactions := some qBounded } }

/-- World where the environment token authenticates, the fetch succeeds
with status 200, and the body parses to the bounded-quota payload. -/
def wQuota : World :=
  { envToken := some "env-token"
    authFile := none
    response := .ok resOk
    parseJson := fun _ => .ok eQuota }

/-- C5: when the whole chain succeeds on a bounded snapshot, the
normalized result has used equal to entitlement minus remaining and
percentUsed equal to 100 minus percent_remaining, and the render shows
the used/total pair with the percentage to two decimal places; with
plan pro, entitlement 200, remaining 50 and percent_remaining 25 the
rendered text contains the fragment 150/200 (75.00%). -/
theorem C5_bounded_quota_normalization (w : World) (args : IToolArgs)
    (auth : AuthResult) (body : String) (e : IEntitlementsData)
    (q : IQuotaSnapshotData)
    (hauth : getAuthToken args.authSource w = .ok auth)
    (hfetch : fetchData (getApiUrl auth.enterpriseUrl) auth.token w.response = .ok body)
    (hparse : w.parseJson body = .ok e)
    (hq : e.quota_snapshots.bind (fun s => s.premium_interactions) = some q)
    (hu : q.unlimited = false) :
    fetchUsageData w args =
      .ok { plan := capitalizePlanName e.copilot_plan
            used := q.entitlement - q.remaining
            total := q.entitlement
            percentUsed := 100 - q.percent_remaining
            unlimited := false }
    ∧ formatMarkdown
        { plan := capitalizePlanName e.copilot_plan
          used := q.entitlement - q.remaining
          total := q.entitlement
          percentUsed := 100 - q.percent_remaining
          unlimited := false }
      = "# Copilot " ++ capitalizePlanName e.copilot_plan
          ++ " Usage\n\nPremium requests: "
          ++ toString (q.entitlement - q.remaining) ++ "/" ++ toString q.entitlement
          ++ " (" ++ toFixed2 (100 - q.percent_remaining) ++ "%)"
    ∧ (e.copilot_plan = "pro" → q.entitlement = 200 → q.remaining = 50 →
       q.percent_remaining = 25 →
       ∃ a b : String,
         formatMarkdown
           { plan := capitalizePlanName e.copilot_plan
             used := q.entitlement - q.remaining
             total := q.entitlement
             percentUsed := 100 - q.percent_remaining
             unlimited := false }
           = a ++ "150/200 (75.00%)" ++ b) := by
  refine ⟨?_, rfl, ?_⟩
  · simp [fetchUsageData, hauth, hfetch, hparse, hq, hu]
  · intro hplan hent hrem hper
    refine ⟨"# Copilot Pro Usage\n\nPremium requests: ", "", ?_⟩
    rw [hplan, hent, hrem, hper]
    have h75 : (100 : Rat) - 25 = 75 := by norm_num
    rw [h75]
    decide

/-- Witness for C5: the success world wQuota evaluates to the fully
concrete normalized record and rendered text. -/
theorem C5_witness :
    fetchUsageData wQuota argsNone =
      .ok { plan := "Pro", used := 150, total := 200, percentUsed := 75, unlimited := false }
    ∧ execute argsNone wQuota = "# Copilot Pro Usage\n\nPremium requests: 150/200 (75.00%)" := by
  have h := C5_bounded_quota_normalization wQuota argsNone
    { token := "env-token", enterpriseUrl := none, source := "env" }
    "body" eQuota qBounded rfl rfl rfl rfl rfl
  have h1 : fetchUsageData wQuota argsNone =
      .ok { plan := "Pro", used := 150, total := 200, percentUsed := 75, unlimited := false } := by
    rw [h.1]
    have h75 : (100 : Rat) - qBounded.percent_remaining = 75 := by
      norm_num [qBounded]
    rw [h75]
    rfl
  refine ⟨h1, ?_⟩
  rw [execute, h1]
  decide

/-- An unlimited snapshot result with nonzero numeric fields. -/
def unlimitedResult : IUsageResult :=
  { plan := "Enterprise", used := 7, total := 9, percentUsed := 3, unlimited := true }

/-- Counterexample to C6: the unlimited rendering is a header, a blank
line and the unlimited line, so splitting at newline characters yields
three lines, not two, and the second line is empty rather than the
unlimited text. -/
theorem C6_counterexample :
    linesOf (formatMarkdown unlimitedResult) =
      ["# Copilot Enterprise Usage", "", "Premium requests: unlimited"]
    ∧ (linesOf (formatMarkdown unlimitedResult)).length ≠ 2
    ∧ (linesOf (formatMarkdown unlimitedResult)).getD 1 "" ≠ "Premium requests: unlimited" := by
  refine ⟨by decide, by decide, by decide⟩

/-- C6 amended: for every snapshot marked unlimited the rendered output
is the header line naming the plan, one blank line, and a final line
that is literally the unlimited text — exactly two non-empty lines —
regardless of the numeric field values present in the snapshot. -/
theorem C6_unlimited_rendering :
    ∀ (plan : String) (u t : Int) (p : Rat),
      formatMarkdown { plan := plan, used := u, total := t, percentUsed := p, unlimited := true }
        = "# Copilot " ++ plan ++ " Usage\n\nPremium requests: unlimited"
      ∧ linesOf (formatMarkdown
          { plan := "Enterprise", used := u, total := t, percentUsed := p, unlimited := true })
        = ["# Copilot Enterprise Usage", "", "Premium requests: unlimited"]
      ∧ ((linesOf (formatMarkdown
          { plan := "Enterprise", used := u, total := t, percentUsed := p,
            unlimited := true })).filter (fun l => l ≠ "")).length = 2 :=
  fun plan u t p => ⟨rfl, rfl, rfl⟩

/-- Entitlements payload for plan individual_pro with no
premium-interactions snapshot. -/
def eNoQuota : IEntitlementsData :=
  { copilot_plan := "individual_pro"
    quota_snapshots := some { chat := none, completions := none
                              premium_interactions := none } }

/-- World where the fetch succeeds but the payload lacks the
premium-interactions quota object. -/
def wNoQuota : World :=
  { envToken := some "env-token"
    authFile := none
    response := .ok resOk
    parseJson := fun _ => .ok eNoQuota }

/-- C7: a successfully parsed payload without the nested
premium-interactions quota object makes the fetch fail with an error
naming the title-cased, space-joined plan; for the raw plan
individual_pro the message contains Individual Pro. -/
theorem C7_plan_unsupported_error (w : World) (args : IToolArgs)
    (auth : AuthResult) (body : String) (e : IEntitlementsData)
    (hauth : getAuthToken args.authSource w = .ok auth)
    (hfetch : fetchData (getApiUrl auth.enterpriseUrl) auth.token w.response = .ok body)
    (hparse : w.parseJson body = .ok e)
    (hq : e.quota_snapshots.bind (fun s => s.premium_interactions) = none) :
    fetchUsageData w args =
      .error ("Premium requests not available for "
        ++ capitalizePlanName e.copilot_plan ++ " plan")
    ∧ (e.copilot_plan = "individual_pro" →
       ∃ a b : String, fetchUsageData w args = .error (a ++ "Individual Pro" ++ b)) := by
  have h1 : fetchUsageData w args =
      .error ("Premium requests not available for "
        ++ capitalizePlanName e.copilot_plan ++ " plan") := by
    simp [fetchUsageData, hauth, hfetch, hparse, hq]
  refine ⟨h1, fun hp => ⟨"Premium requests not available for ", " plan", ?_⟩⟩
  rw [h1, hp]
  have hcap : capitalizePlanName "individual_pro" = "Individual Pro" := by decide
  rw [hcap]

/-- Witness for C7: the world wNoQuota produces the concrete
plan-unsupported message. -/
theorem C7_witness :
    fetchUsageData wNoQuota argsNone =
      .error "Premium requests not available for Individual Pro plan" := by
  have h := (C7_plan_unsupported_error wNoQuota argsNone
    { token := "env-token", enterpriseUrl := none, source := "env" }
    "body" eNoQuota rfl rfl rfl rfl).1
  rw [h]
  have hcap : capitalizePlanName eNoQuota.copilot_plan = "Individual Pro" := by decide
  rw [hcap]
  rfl

/-- World with a valid environment token whose fetch comes back 401. -/
def w401 : World :=
  { envToken := some "env-token"
    authFile := none
    response := .ok { statusCode := 401, statusMessage := "Unauthorized", body := "" }
    parseJson := fun _ => .error "Unexpected token" }

/-- C8: a response status outside 200 to 299 makes the fetch fail with
an error carrying the numeric status and status text, and the
invocation's error text is the error template around HTTP followed by
that status. -/
theorem C8_non2xx_http_error (w : World) (args : IToolArgs)
    (auth : AuthResult) (res : HttpResponse)
    (hauth : getAuthToken args.authSource w = .ok auth)
    (hres : w.response = .ok res)
    (hs : ¬(200 ≤ res.statusCode ∧ res.statusCode < 300)) :
    fetchData (getApiUrl auth.enterpriseUrl) auth.token w.response
      = .error ("HTTP " ++ toString res.statusCode ++ ": " ++ res.statusMessage)
    ∧ execute args w
      = "# Copilot Usage Error\n\nError: HTTP " ++ toString res.statusCode
          ++ ": " ++ res.statusMessage := by
  have h1 : fetchData (getApiUrl auth.enterpriseUrl) auth.token w.response
      = .error ("HTTP " ++ toString res.statusCode ++ ": " ++ res.statusMessage) := by
    simp [fetchData, hres, hs]
  refine ⟨h1, ?_⟩
  have h2 : fetchUsageData w args
      = .error ("HTTP " ++ toString res.statusCode ++ ": " ++ res.statusMessage) := by
    simp [fetchUsageData, hauth, h1]
  rw [execute, h2]
  rfl

/-- Witness for C8: a 401 response renders the concrete HTTP 401 error
text, which contains the fragment HTTP 401. -/
theorem C8_witness :
    execute argsNone w401 = "# Copilot Usage Error\n\nError: HTTP 401: Unauthorized"
    ∧ ∃ a b : String,
        execute argsNone w401 = a ++ "HTTP 401" ++ b := by
  have h := (C8_non2xx_http_error w401 argsNone
    { token := "env-token", enterpriseUrl := none, source := "env" }
    { statusCode := 401, statusMessage := "Unauthorized", body := "" }
    rfl rfl (by decide)).2
  refine ⟨by rw [h]; rfl, "# Copilot Usage Error\n\nError: ", ": Unauthorized", by rw [h]; rfl⟩

/-- World with no environment token and no credential file. -/
def wNoAuth : World :=
  { envToken := none
    authFile := none
    response := .ok resOk
    parseJson := fun _ => .error "Unexpected token" }

/-- C9: every invocation returns a text string: either the success
render of the fetched result, or the fixed failure template around the
error message raised anywhere in the resolve, build and fetch chain; in
particular, with no environment token and no credential file the
returned error text contains Authentication not found. -/
theorem C9_error_boundary (w : World) (args : IToolArgs) :
    ((∃ r : IUsageResult, fetchUsageData w args = .ok r
        ∧ execute args w = formatMarkdown r)
     ∨ (∃ m : String, fetchUsageData w args = .error m
        ∧ execute args w = "# Copilot Usage Error\n\nError: " ++ m))
    ∧ (w.envToken = none → w.authFile = none →
       execute args w =
         "# Copilot Usage Error\n\nError: Authentication not found. Set GITHUB_TOKEN env var or authenticate with OpenCode"
       ∧ ∃ a b : String, execute args w = a ++ "Authentication not found" ++ b) := by
  constructor
  · cases hfu : fetchUsageData w args with
    | ok r => exact Or.inl ⟨r, rfl, by rw [execute, hfu]⟩
    | error m => exact Or.inr ⟨m, rfl, by rw [execute, hfu]⟩
  · intro henv hfile
    have h : execute args w =
        "# Copilot Usage Error\n\nError: Authentication not found. Set GITHUB_TOKEN env var or authenticate with OpenCode" := by
      rw [execute]
      have hfu : fetchUsageData w args =
          .error "Authentication not found. Set GITHUB_TOKEN env var or authenticate with OpenCode" := by
        simp [fetchUsageData, getAuthToken, henv, getAuthTokenFromFile, hfile]
      rw [hfu]
      rfl
    exact ⟨h,
      "# Copilot Usage Error\n\nError: ",
      ". Set GITHUB_TOKEN env var or authenticate with OpenCode",
      by rw [h]; rfl⟩

/-- Witness for C9: the world with no credential anywhere renders the
authentication-not-found error text. -/
theorem C9_witness :
    execute argsNone wNoAuth =
      "# Copilot Usage Error\n\nError: Authentication not found. Set GITHUB_TOKEN env var or authenticate with OpenCode"
    ∧ ∃ a b : String, execute argsNone wNoAuth = a ++ "Authentication not found" ++ b :=
  (C9_error_boundary wNoAuth argsNone).2 rfl rfl

/-- C10: with a non-empty environment token the resolved record carries
no enterprise URL, so the URL handed to the fetch is always the fixed
public endpoint, whatever authSource preference the caller passed. -/
theorem C10_env_token_default_endpoint (w : World) (args : IToolArgs)
    (t : String) (henv : w.envToken = some t) (hne : t ≠ "") :
    getAuthToken args.authSource w =
      .ok { token := t, enterpriseUrl := none, source := "env" }
    ∧ resolvedApiUrl args w = .ok "https://api.github.com/copilot_internal/user" := by
  have h : getAuthToken args.authSource w =
      .ok { token := t, enterpriseUrl := none, source := "env" } := by
    simp [getAuthToken, henv, hne]
  exact ⟨h, by rw [resolvedApiUrl, h]; rfl⟩

/-- Witness for C10: environment token set, an organizational file entry
with an enterprise URL available, and the caller asking for enterprise;
the fetch still targets the public endpoint. -/
theorem C10_witness :
    getAuthToken (some AuthSource.enterprise) wEnvAndFile =
      .ok { token := "env-token", enterpriseUrl := none, source := "env" }
    ∧ resolvedApiUrl { authSource := some AuthSource.enterprise } wEnvAndFile =
        .ok "https://api.github.com/copilot_internal/user" :=
  C10_env_token_default_endpoint wEnvAndFile
    { authSource := some AuthSource.enterprise } "env-token" rfl (by decide)
